import Mathlib

/-!
Verification of the FSAE ruleset scraper cog (bot/cogs/scraper.py).

The development is a shallow embedding of the change-detection pipeline:
the snapshot store (save_data / load_data), the listing parser
(scrape_pdfs), the diff engine and the per-cycle driver
(check_for_updates).  Network and browser I/O are abstracted as oracles:
the rendered page is a list of table rows, and the metadata HEAD request
(get_metadata) is a function from a URL to an optional filename.
Python exceptions are modelled with Except; a Python None that can flow
into an operation expecting a value is modelled with Option.
-/

/-- One scraped document entry.  In Python this is a dict with keys
title, url, document_id, filename; document_id and filename may be None
(modelled as Option), title and url are always strings. -/
structure PdfRecord where
  title : String
  url : String
  document_id : Option String
  filename : Option String
deriving DecidableEq, Repr

/-- The JSON values the cache file can hold (the subset produced and
consumed by json.dump / json.load for this program: strings, null,
arrays, objects). -/
inductive Json where
  | null : Json
  | str (s : String) : Json
  | arr (xs : List Json) : Json
  | obj (kvs : List (String × Json)) : Json

/-- An optional string as json.dump writes it: None becomes null. -/
def optStrJson : Option String → Json
  | none => Json.null
  | some s => Json.str s

/-- The JSON object json.dump writes for one record dict (insertion
order of the keys in the Python dicts built by the scraper). -/
def encodeRec (r : PdfRecord) : Json :=
  Json.obj [("title", Json.str r.title), ("url", Json.str r.url),
            ("document_id", optStrJson r.document_id),
            ("filename", optStrJson r.filename)]

/-- The JSON array json.dump writes for a list of record dicts. -/
def encodeRecList (rs : List PdfRecord) : Json :=
  Json.arr (rs.map encodeRec)

/-- Read back an optional string: null is None, a string is itself. -/
def decodeOptStr : Json → Option (Option String)
  | Json.null => some none
  | Json.str s => some (some s)
  | _ => none

/-- Read back one record object.  json.load keeps the raw dict; this
decoder expresses when that dict is by value a record as written by
encodeRec. -/
def decodeRec : Json → Option PdfRecord
  | Json.obj [("title", Json.str t), ("url", Json.str u),
              ("document_id", dj), ("filename", fj)] =>
    match decodeOptStr dj, decodeOptStr fj with
    | some dv, some fv =>
      some { title := t, url := u, document_id := dv, filename := fv }
    | _, _ => none
  | _ => none

/-- Read back a list of record objects, failing if any element fails. -/
def decodeRecArray : List Json → Option (List PdfRecord)
  | [] => some []
  | j :: js =>
    match decodeRec j, decodeRecArray js with
    | some r, some rs => some (r :: rs)
    | _, _ => none

/-- Read back the persisted document: it must be a JSON array of record
objects. -/
def decodeRecList : Json → Option (List PdfRecord)
  | Json.arr js => decodeRecArray js
  | _ => none

/-- The state of the cache file fsae_pdfs.json as the program can
observe it: absent (open raises FileNotFoundError), present but not
readable as JSON (json.load raises, standing in for every non-not-found
read failure), or holding a JSON document. -/
inductive FileState where
  | absent : FileState
  | malformed : FileState
  | doc (j : Json) : FileState

/-- Failures of the load step. -/
inductive LoadError where
  | jsonDecodeError : LoadError
  | shapeError : LoadError
deriving DecidableEq, Repr

/-- save_data: json.dump of the given data over the cache file. -/
def save_data (data : Json) : FileState :=
  FileState.doc data

/-- load_data: json.load of the cache file.  FileNotFoundError is caught
and an empty list returned; every other failure propagates. -/
def load_data : FileState → Except LoadError Json
  | FileState.absent => Except.ok (Json.arr [])
  | FileState.malformed => Except.error LoadError.jsonDecodeError
  | FileState.doc j => Except.ok j

/-- load_data followed by reading the result as a list of records.  The
Python code is duck-typed: a document of the wrong shape raises at the
first field access in check_for_updates, which is also before any save;
here that is surfaced eagerly as shapeError. -/
def loadRecords (fs : FileState) : Except LoadError (List PdfRecord) :=
  match load_data fs with
  | Except.error e => Except.error e
  | Except.ok j =>
    match decodeRecList j with
    | some rs => Except.ok rs
    | none => Except.error LoadError.shapeError

/-- A td element as the parser probes it: its first direct
(non-recursive) text node, if any, and the text of its first inner span,
if any. -/
structure Cell where
  directText : Option String
  spanText : Option String
deriving DecidableEq, Repr

/-- An anchor element: its class attribute string and href attribute. -/
structure Anchor where
  cls : Option String
  href : Option String
deriving DecidableEq, Repr

/-- A tr element of the listing table: its data-folder-id attribute, its
class list, its td children in order, and its anchor descendants in
order. -/
structure Row where
  folderId : Option String
  classes : List String
  cells : List Cell
  anchors : List Anchor
deriving DecidableEq, Repr

/-- The exceptions row processing in scrape_pdfs can raise:
row.find td giving None makes first_cell.find raise AttributeError, and
first_cell.find text giving None makes None.strip raise AttributeError. -/
inductive ScrapeError where
  | noFirstCell : ScrapeError
  | stripOnNone : ScrapeError
deriving DecidableEq, Repr

/-- soup.find of the tr with data-folder-id "Ruleset and Resources"; on
success the returned value is the list of following sibling rows
(find_next_siblings). -/
def findRulesetRow : List Row → Option (List Row)
  | [] => none
  | r :: rest =>
    if r.folderId = some "Ruleset and Resources" then some rest
    else findRulesetRow rest

/-- Collect sibling rows until one whose class list contains folder. -/
def collectRows : List Row → List Row
  | [] => []
  | r :: rest =>
    if "folder" ∈ r.classes then []
    else r :: collectRows rest

/-- The whitespace Python str.strip removes (the characters this
program can meet). -/
def pySpace (c : Char) : Bool :=
  c == ' ' || c == '\t' || c == '\n' || c == '\r'

/-- Python str.strip with no argument: whitespace removed from both
ends. -/
def pyStrip (s : String) : String :=
  String.mk (((s.data.dropWhile pySpace).reverse.dropWhile pySpace).reverse)

/-- When sep is an initial segment of l, the remainder of l after it. -/
def dropLead (sep l : List Char) : Option (List Char) :=
  match sep, l with
  | [], rest => some rest
  | _ :: _, [] => none
  | c :: cs, d :: ds => if c = d then dropLead cs ds else none

/-- Python str.split with a non-empty separator, over char lists.  Fuel
bounds the recursion; every separator hit or single character consumed
costs one unit, so the length of the list is always enough. -/
def splitCharsFuel (sep : List Char) : Nat → List Char → List (List Char)
  | _, [] => [[]]
  | 0, l => [l]
  | Nat.succ fuel, c :: rest =>
    match dropLead sep (c :: rest) with
    | some rem => [] :: splitCharsFuel sep fuel rem
    | none =>
      match splitCharsFuel sep fuel rest with
      | [] => [[c]]
      | part :: parts => (c :: part) :: parts

/-- Python str.split with a non-empty separator. -/
def pySplit (s sep : String) : List String :=
  (splitCharsFuel sep.data s.data.length s.data).map String.mk

/-- The value of one decimal digit. -/
def digitVal (c : Char) : Option Nat :=
  if '0' ≤ c && c ≤ '9' then some (c.toNat - '0'.toNat) else none

/-- Accumulate a decimal digit string into a number. -/
def digitsToNat : List Char → Nat → Option Nat
  | [], acc => some acc
  | c :: cs, acc =>
    match digitVal c with
    | some d => digitsToNat cs (acc * 10 + d)
    | none => none

/-- Python int applied to a string: surrounding whitespace allowed, an
optional sign, then decimal digits; anything else raises ValueError
(here: none).  Underscore separators and non-decimal bases are not
modelled; no input of this program uses them. -/
def pyIntParse (s : String) : Option Int :=
  match (pyStrip s).data with
  | [] => none
  | '-' :: cs =>
    match cs with
    | [] => none
    | _ => (digitsToNat cs 0).map (fun n => -(n : Int))
  | '+' :: cs =>
    match cs with
    | [] => none
    | _ => (digitsToNat cs 0).map (fun n => (n : Int))
  | cs => (digitsToNat cs 0).map (fun n => (n : Int))

/-- The per-row body of the scrape loop.  Title extraction runs first
and can raise; a row without a primary download anchor carrying an href
is skipped (ok none). -/
def processRow (row : Row) : Except ScrapeError (Option PdfRecord) :=
  match row.cells.head? with
  | none => Except.error ScrapeError.noFirstCell
  | some first_cell =>
    match first_cell.directText with
    | none => Except.error ScrapeError.stripOnNone
    | some raw_title =>
      let main_title := pyStrip raw_title
      let desc_text :=
        match first_cell.spanText with
        | some s => pyStrip s
        | none => ""
      let final_title :=
        if desc_text ≠ "" then main_title ++ " (" ++ desc_text ++ ")"
        else main_title
      match row.anchors.find? (fun a => a.cls = some "btn btn-primary") with
      | some download_tag =>
        match download_tag.href with
        | some download_url =>
          let full_url := "https://www.fsaeonline.com" ++ download_url
          let doc_id := (pySplit full_url "DocumentID=")[1]?
          Except.ok (some { title := final_title, url := full_url,
                            document_id := doc_id, filename := none })
        | none => Except.ok none
      | none => Except.ok none

/-- The row loop of scrape_pdfs: rows processed in order, first raised
exception propagates, skipped rows contribute nothing. -/
def processRows : List Row → Except ScrapeError (List PdfRecord)
  | [] => Except.ok []
  | row :: rest =>
    match processRow row with
    | Except.error e => Except.error e
    | Except.ok none => processRows rest
    | Except.ok (some rec) =>
      match processRows rest with
      | Except.error e => Except.error e
      | Except.ok recs => Except.ok (rec :: recs)

/-- scrape_pdfs over the rendered table rows.  When the marker row is
not found the function logs a warning and falls off a bare return,
producing Python None: that is the ok none result, distinct from an
empty record list. -/
def scrape_pdfs (tableRows : List Row) :
    Except ScrapeError (Option (List PdfRecord)) :=
  match findRulesetRow tableRows with
  | none => Except.ok none
  | some siblings =>
    match processRows (collectRows siblings) with
    | Except.error e => Except.error e
    | Except.ok links => Except.ok (some links)

/-- Lookup in the dict comprehension keyed by url built from
previous_pdfs: later list entries overwrite earlier ones, so lookup
finds the last record with the given url. -/
def lastByUrl : List PdfRecord → String → Option PdfRecord
  | [], _ => none
  | pdf :: rest, u =>
    match lastByUrl rest u with
    | some q => some q
    | none => if pdf.url = u then some pdf else none

/-- Lookup in the dict comprehension keyed by title, same last-wins
semantics. -/
def lastByTitle : List PdfRecord → String → Option PdfRecord
  | [], _ => none
  | pdf :: rest, t =>
    match lastByTitle rest t with
    | some q => some q
    | none => if pdf.title = t then some pdf else none

/-- Which list, if any, the comparison loop appends a current record
to. -/
inductive RecClass where
  | isNew : RecClass
  | isModified : RecClass
  | unchanged : RecClass
deriving DecidableEq, Repr

/-- The branch logic of the comparison loop for one current record. -/
def classify (previous : List PdfRecord) (pdf : PdfRecord) : RecClass :=
  match lastByUrl previous pdf.url with
  | some previous_pdf =>
    if pdf.filename ≠ previous_pdf.filename ∨
       (pdf.document_id ≠ previous_pdf.document_id ∧
        pdf.title = previous_pdf.title) then RecClass.isModified
    else RecClass.unchanged
  | none =>
    if (lastByTitle previous pdf.title).isSome then RecClass.isModified
    else RecClass.isNew

/-- The comparison loop of check_for_updates: walk current in order and
build new_pdfs and modified_pdfs. -/
def diffRecords (previous : List PdfRecord) : List PdfRecord → List PdfRecord × List PdfRecord
  | [] => ([], [])
  | pdf :: rest =>
    match classify previous pdf with
    | RecClass.isNew =>
      (pdf :: (diffRecords previous rest).1, (diffRecords previous rest).2)
    | RecClass.isModified =>
      ((diffRecords previous rest).1, pdf :: (diffRecords previous rest).2)
    | RecClass.unchanged => diffRecords previous rest

/-- The exceptions one cycle of check_for_updates can raise. -/
inductive CycleError where
  | loadError (e : LoadError) : CycleError
  | scrapeError (e : ScrapeError) : CycleError
  | noneNotIterable : CycleError
  | intOfNone : CycleError
  | intParseError : CycleError
deriving DecidableEq, Repr

/-- Python int applied to os.getenv output: int of None raises
TypeError, int of a non-numeric string raises ValueError. -/
def pyInt : Option String → Except CycleError Int
  | none => Except.error CycleError.intOfNone
  | some s =>
    match pyIntParse s with
    | some n => Except.ok n
    | none => Except.error CycleError.intParseError

/-- The role mention prefixed to every announcement. -/
def roleMention (roleId : Int) : String :=
  "<@&" ++ toString roleId ++ ">"

/-- The single message sent for new records. -/
def newMessage (roleId : Int) (pdfs : List PdfRecord) : String :=
  String.intercalate "\n"
    ((roleMention roleId ++ " **New FSAE Rules Posted:**\n") ::
     pdfs.map (fun p => "> **" ++ p.title ++ ":**\n> " ++ p.url))

/-- The single message sent for modified records. -/
def modifiedMessage (roleId : Int) (pdfs : List PdfRecord) : String :=
  String.intercalate "\n"
    ((roleMention roleId ++ " **FSAE Rules Have Been Updated:**\n") ::
     pdfs.map (fun p => "> **" ++ p.title ++ ":** **(Updated)**\n> " ++ p.url))

/-- The observable outcome of one cycle that returns normally: the two
classified lists, the messages sent to the channel, and the cache file
state when the cycle ends. -/
structure CycleOutcome where
  new_pdfs : List PdfRecord
  modified_pdfs : List PdfRecord
  messages : List String
  finalState : FileState

/-- One cycle of check_for_updates.  Inputs: the cache file state, the
rendered table rows, the metadata oracle (url to optional filename, the
result of get_metadata which never raises), the raw CHANNEL_ID and
ROLE_ID environment values, and channel resolution (bot.get_channel
viewed as a predicate).  Mirrors the Python statement order: load,
scrape, enrich, diff, env parse, guard, announce, save.  Every early
return leaves the cache file untouched. -/
def check_for_updates (fs : FileState) (tableRows : List Row)
    (meta : String → Option String) (channelEnv roleEnv : Option String)
    (getChannel : Int → Bool) : Except CycleError CycleOutcome :=
  match loadRecords fs with
  | Except.error e => Except.error (CycleError.loadError e)
  | Except.ok previous_pdfs =>
    match scrape_pdfs tableRows with
    | Except.error e => Except.error (CycleError.scrapeError e)
    | Except.ok none => Except.error CycleError.noneNotIterable
    | Except.ok (some scraped) =>
      let current_pdfs := scraped.map
        (fun pdf => { pdf with filename := meta pdf.url })
      let diffd := diffRecords previous_pdfs current_pdfs
      match pyInt channelEnv with
      | Except.error e => Except.error e
      | Except.ok CHANNEL_ID =>
        match pyInt roleEnv with
        | Except.error e => Except.error e
        | Except.ok ROLE_ID =>
          if CHANNEL_ID = 0 ∨ ROLE_ID = 0 then
            Except.ok { new_pdfs := diffd.1, modified_pdfs := diffd.2,
                        messages := [], finalState := fs }
          else if diffd.1.isEmpty && diffd.2.isEmpty then
            Except.ok { new_pdfs := diffd.1, modified_pdfs := diffd.2,
                        messages := [],
                        finalState := save_data (encodeRecList current_pdfs) }
          else if getChannel CHANNEL_ID then
            Except.ok { new_pdfs := diffd.1, modified_pdfs := diffd.2,
                        messages :=
                          (if diffd.1.isEmpty then []
                           else [newMessage ROLE_ID diffd.1]) ++
                          (if diffd.2.isEmpty then []
                           else [modifiedMessage ROLE_ID diffd.2]),
                        finalState := save_data (encodeRecList current_pdfs) }
          else
            Except.ok { new_pdfs := diffd.1, modified_pdfs := diffd.2,
                        messages := [], finalState := fs }

/-- A marker row: the tr carrying data-folder-id "Ruleset and
Resources". -/
def markerRow : Row :=
  { folderId := some "Ruleset and Resources", classes := [],
    cells := [], anchors := [] }

/-- A row that is not the marker and not a folder boundary. -/
def plainRow : Row :=
  { folderId := none, classes := [],
    cells := [{ directText := some "Notes", spanText := none }],
    anchors := [] }

/-- A listing row with a title cell and a primary download anchor. -/
def docRow : Row :=
  { folderId := none, classes := [],
    cells := [{ directText := some "Rules", spanText := none }],
    anchors := [{ cls := some "btn btn-primary",
                  href := some "/x?DocumentID=9" }] }

/-- A collected row whose first cell has no direct text node. -/
def noTextRow : Row :=
  { folderId := none, classes := [],
    cells := [{ directText := none, spanText := none }],
    anchors := [] }

/-- A collected row with no td at all. -/
def noCellRow : Row :=
  { folderId := none, classes := [], cells := [], anchors := [] }

/-- The record scrape_pdfs builds from docRow, after enrichment with a
metadata oracle that found no filename. -/
def rec9 : PdfRecord :=
  { title := "Rules", url := "https://www.fsaeonline.com/x?DocumentID=9",
    document_id := some "9", filename := none }

theorem lastByUrl_eq_none (l : List PdfRecord) (u : String)
    (h : ∀ q ∈ l, q.url ≠ u) : lastByUrl l u = none := by
  induction l with
  | nil => rfl
  | cons pdf rest ih =>
    have hrest := ih (fun q hq => h q (List.mem_cons_of_mem _ hq))
    simp [lastByUrl, hrest, h pdf (List.mem_cons_self _ _)]

theorem lastByUrl_self (cur : List PdfRecord) (r : PdfRecord)
    (hnd : (cur.map PdfRecord.url).Nodup) (hm : r ∈ cur) :
    lastByUrl cur r.url = some r := by
  induction cur with
  | nil => cases hm
  | cons pdf rest ih =>
    rw [List.map_cons, List.nodup_cons] at hnd
    rcases List.mem_cons.mp hm with rfl | hm2
    · have hnone : lastByUrl rest r.url = none := by
        apply lastByUrl_eq_none
        intro q hq hqe
        exact hnd.1 (hqe ▸ List.mem_map_of_mem PdfRecord.url hq)
      simp [lastByUrl, hnone]
    · have hsome := ih hnd.2 hm2
      simp [lastByUrl, hsome]

theorem mem_diffRecords_fst (previous : List PdfRecord) :
    ∀ (cur : List PdfRecord) (r : PdfRecord),
      r ∈ (diffRecords previous cur).1 ↔
        r ∈ cur ∧ classify previous r = RecClass.isNew := by
  intro cur
  induction cur with
  | nil => intro r; simp [diffRecords]
  | cons pdf rest ih =>
    intro r
    cases hc : classify previous pdf with
    | isNew =>
      simp only [diffRecords, hc, List.mem_cons, ih]
      constructor
      · rintro (rfl | ⟨hm, hcl⟩)
        · exact ⟨Or.inl rfl, hc⟩
        · exact ⟨Or.inr hm, hcl⟩
      · rintro ⟨rfl | hm, hcl⟩
        · exact Or.inl rfl
        · exact Or.inr ⟨hm, hcl⟩
    | isModified =>
      simp only [diffRecords, hc, List.mem_cons, ih]
      constructor
      · rintro ⟨hm, hcl⟩
        exact ⟨Or.inr hm, hcl⟩
      · rintro ⟨rfl | hm, hcl⟩
        · rw [hc] at hcl; cases hcl
        · exact ⟨hm, hcl⟩
    | unchanged =>
      simp only [diffRecords, hc, List.mem_cons, ih]
      constructor
      · rintro ⟨hm, hcl⟩
        exact ⟨Or.inr hm, hcl⟩
      · rintro ⟨rfl | hm, hcl⟩
        · rw [hc] at hcl; cases hcl
        · exact ⟨hm, hcl⟩

theorem mem_diffRecords_snd (previous : List PdfRecord) :
    ∀ (cur : List PdfRecord) (r : PdfRecord),
      r ∈ (diffRecords previous cur).2 ↔
        r ∈ cur ∧ classify previous r = RecClass.isModified := by
  intro cur
  induction cur with
  | nil => intro r; simp [diffRecords]
  | cons pdf rest ih =>
    intro r
    cases hc : classify previous pdf with
    | isModified =>
      simp only [diffRecords, hc, List.mem_cons, ih]
      constructor
      · rintro (rfl | ⟨hm, hcl⟩)
        · exact ⟨Or.inl rfl, hc⟩
        · exact ⟨Or.inr hm, hcl⟩
      · rintro ⟨rfl | hm, hcl⟩
        · exact Or.inl rfl
        · exact Or.inr ⟨hm, hcl⟩
    | isNew =>
      simp only [diffRecords, hc, List.mem_cons, ih]
      constructor
      · rintro ⟨hm, hcl⟩
        exact ⟨Or.inr hm, hcl⟩
      · rintro ⟨rfl | hm, hcl⟩
        · rw [hc] at hcl; cases hcl
        · exact ⟨hm, hcl⟩
    | unchanged =>
      simp only [diffRecords, hc, List.mem_cons, ih]
      constructor
      · rintro ⟨hm, hcl⟩
        exact ⟨Or.inr hm, hcl⟩
      · rintro ⟨rfl | hm, hcl⟩
        · rw [hc] at hcl; cases hcl
        · exact ⟨hm, hcl⟩

theorem diffRecords_fst_sublist (previous : List PdfRecord) :
    ∀ cur : List PdfRecord, (diffRecords previous cur).1.Sublist cur := by
  intro cur
  induction cur with
  | nil => simp [diffRecords]
  | cons pdf rest ih =>
    cases hc : classify previous pdf with
    | isNew => simpa [diffRecords, hc] using List.Sublist.cons₂ pdf ih
    | isModified => simpa [diffRecords, hc] using List.Sublist.cons pdf ih
    | unchanged => simpa [diffRecords, hc] using List.Sublist.cons pdf ih

theorem diffRecords_snd_sublist (previous : List PdfRecord) :
    ∀ cur : List PdfRecord, (diffRecords previous cur).2.Sublist cur := by
  intro cur
  induction cur with
  | nil => simp [diffRecords]
  | cons pdf rest ih =>
    cases hc : classify previous pdf with
    | isNew => simpa [diffRecords, hc] using List.Sublist.cons pdf ih
    | isModified => simpa [diffRecords, hc] using List.Sublist.cons₂ pdf ih
    | unchanged => simpa [diffRecords, hc] using List.Sublist.cons pdf ih

theorem diffRecords_eq_nil_of_unchanged (previous : List PdfRecord) :
    ∀ cur : List PdfRecord,
      (∀ r ∈ cur, classify previous r = RecClass.unchanged) →
      diffRecords previous cur = ([], []) := by
  intro cur
  induction cur with
  | nil => intro _; rfl
  | cons pdf rest ih =>
    intro h
    have hc := h pdf (List.mem_cons_self _ _)
    have ht := ih (fun r hr => h r (List.mem_cons_of_mem _ hr))
    simp [diffRecords, hc, ht]

theorem classify_self_unchanged (cur : List PdfRecord) (r : PdfRecord)
    (hnd : (cur.map PdfRecord.url).Nodup) (hm : r ∈ cur) :
    classify cur r = RecClass.unchanged := by
  have h := lastByUrl_self cur r hnd hm
  simp [classify, h]

theorem decodeRec_encodeRec (r : PdfRecord) :
    decodeRec (encodeRec r) = some r := by
  rcases r with ⟨t, u, d, f⟩
  cases d <;> cases f <;> rfl

theorem decodeRecArray_map_encodeRec (rs : List PdfRecord) :
    decodeRecArray (rs.map encodeRec) = some rs := by
  induction rs with
  | nil => rfl
  | cons r rest ih => simp [decodeRecArray, decodeRec_encodeRec, ih]

/-- Claim C3: for every pair of previous and current record sequences,
new_pdfs and modified_pdfs are disjoint, each is an ordered subsequence
of current, and every element of each output appears in current. -/
theorem diff_outputs_disjoint_sublists (previous current : List PdfRecord) :
    List.Disjoint (diffRecords previous current).1 (diffRecords previous current).2 ∧
    (diffRecords previous current).1.Sublist current ∧
    (diffRecords previous current).2.Sublist current ∧
    (diffRecords previous current).1 ⊆ current ∧
    (diffRecords previous current).2 ⊆ current := by
  refine ⟨?_, diffRecords_fst_sublist previous current,
          diffRecords_snd_sublist previous current,
          (diffRecords_fst_sublist previous current).subset,
          (diffRecords_snd_sublist previous current).subset⟩
  intro r h1 h2
  have hn := ((mem_diffRecords_fst previous current r).mp h1).2
  have hm := ((mem_diffRecords_snd previous current r).mp h2).2
  rw [hn] at hm
  cases hm

/-- Witness for C3 at a concrete previous/current pair. -/
theorem diff_outputs_disjoint_sublists_witness :
    List.Disjoint
      (diffRecords [rec9] [rec9, { rec9 with url := "u2" }]).1
      (diffRecords [rec9] [rec9, { rec9 with url := "u2" }]).2 ∧
    (diffRecords [rec9] [rec9, { rec9 with url := "u2" }]).1.Sublist
      [rec9, { rec9 with url := "u2" }] ∧
    (diffRecords [rec9] [rec9, { rec9 with url := "u2" }]).2.Sublist
      [rec9, { rec9 with url := "u2" }] ∧
    (diffRecords [rec9] [rec9, { rec9 with url := "u2" }]).1 ⊆
      [rec9, { rec9 with url := "u2" }] ∧
    (diffRecords [rec9] [rec9, { rec9 with url := "u2" }]).2 ⊆
      [rec9, { rec9 with url := "u2" }] :=
  diff_outputs_disjoint_sublists [rec9] [rec9, { rec9 with url := "u2" }]

/-- Claim C4: a current record whose url is in the previous by-url
mapping and whose filename differs by value from the matched previous
record (including absent versus present) is classified modified,
whatever its document_id. -/
theorem filename_change_is_modified (previous current : List PdfRecord)
    (r p : PdfRecord) (hmem : r ∈ current)
    (hurl : lastByUrl previous r.url = some p)
    (hfn : r.filename ≠ p.filename) :
    r ∈ (diffRecords previous current).2 := by
  have hc : classify previous r = RecClass.isModified := by
    simp [classify, hurl, hfn]
  exact (mem_diffRecords_snd previous current r).mpr ⟨hmem, hc⟩

/-- Witness for C4: same url, filename changed from a.pdf to b.pdf. -/
theorem filename_change_is_modified_witness :
    ({ title := "Rules", url := "u1", document_id := some "5",
       filename := some "b.pdf" } : PdfRecord) ∈
      [({ title := "Rules", url := "u1", document_id := some "5",
          filename := some "b.pdf" } : PdfRecord)] ∧
    lastByUrl
      [{ title := "Rules", url := "u1", document_id := some "5",
         filename := some "a.pdf" }] "u1" =
      some { title := "Rules", url := "u1", document_id := some "5",
             filename := some "a.pdf" } ∧
    (some "b.pdf" : Option String) ≠ some "a.pdf" ∧
    ({ title := "Rules", url := "u1", document_id := some "5",
       filename := some "b.pdf" } : PdfRecord) ∈
      (diffRecords
        [{ title := "Rules", url := "u1", document_id := some "5",
           filename := some "a.pdf" }]
        [{ title := "Rules", url := "u1", document_id := some "5",
           filename := some "b.pdf" }]).2 :=
  ⟨by decide, by decide, by decide,
   filename_change_is_modified
     [{ title := "Rules", url := "u1", document_id := some "5",
        filename := some "a.pdf" }]
     [{ title := "Rules", url := "u1", document_id := some "5",
        filename := some "b.pdf" }]
     { title := "Rules", url := "u1", document_id := some "5",
       filename := some "b.pdf" }
     { title := "Rules", url := "u1", document_id := some "5",
       filename := some "a.pdf" }
     (by decide) (by decide) (by decide)⟩

/-- Claim C5: a current record matched by url, with equal filename,
different document_id and different title, is classified unchanged: it
is in neither output list. -/
theorem docid_change_title_mismatch_unchanged
    (previous current : List PdfRecord) (r p : PdfRecord)
    (hmem : r ∈ current) (hurl : lastByUrl previous r.url = some p)
    (hfn : r.filename = p.filename)
    (hid : r.document_id ≠ p.document_id) (ht : r.title ≠ p.title) :
    r ∉ (diffRecords previous current).1 ∧
    r ∉ (diffRecords previous current).2 := by
  have hc : classify previous r = RecClass.unchanged := by
    simp [classify, hurl, hfn, ht]
  constructor
  · intro h
    have := ((mem_diffRecords_fst previous current r).mp h).2
    rw [hc] at this; cases this
  · intro h
    have := ((mem_diffRecords_snd previous current r).mp h).2
    rw [hc] at this; cases this

/-- Witness for C5: the example from the specification. -/
theorem docid_change_title_mismatch_unchanged_witness :
    ({ title := "Rules2", url := "u1", document_id := some "9",
       filename := some "a.pdf" } : PdfRecord) ∈
      [({ title := "Rules2", url := "u1", document_id := some "9",
          filename := some "a.pdf" } : PdfRecord)] ∧
    lastByUrl
      [{ title := "Rules", url := "u1", document_id := some "5",
         filename := some "a.pdf" }] "u1" =
      some { title := "Rules", url := "u1", document_id := some "5",
             filename := some "a.pdf" } ∧
    ({ title := "Rules2", url := "u1", document_id := some "9",
       filename := some "a.pdf" } : PdfRecord) ∉
      (diffRecords
        [{ title := "Rules", url := "u1", document_id := some "5",
           filename := some "a.pdf" }]
        [{ title := "Rules2", url := "u1", document_id := some "9",
           filename := some "a.pdf" }]).1 ∧
    ({ title := "Rules2", url := "u1", document_id := some "9",
       filename := some "a.pdf" } : PdfRecord) ∉
      (diffRecords
        [{ title := "Rules", url := "u1", document_id := some "5",
           filename := some "a.pdf" }]
        [{ title := "Rules2", url := "u1", document_id := some "9",
           filename := some "a.pdf" }]).2 := by
  have h := docid_change_title_mismatch_unchanged
    [{ title := "Rules", url := "u1", document_id := some "5",
       filename := some "a.pdf" }]
    [{ title := "Rules2", url := "u1", document_id := some "9",
       filename := some "a.pdf" }]
    { title := "Rules2", url := "u1", document_id := some "9",
      filename := some "a.pdf" }
    { title := "Rules", url := "u1", document_id := some "5",
      filename := some "a.pdf" }
    (by decide) (by decide) (by decide) (by decide) (by decide)
  exact ⟨by decide, by decide, h.1, h.2⟩

/-- Claim C6: a current record whose url, filename and document_id all
equal those of the previous record matched by url appears in neither
output; hence, for a snapshot with unique urls, diffing an unchanged
page against itself produces two empty outputs. -/
theorem unchanged_record_idempotent :
    (∀ (previous current : List PdfRecord) (r p : PdfRecord),
      r ∈ current → lastByUrl previous r.url = some p →
      r.filename = p.filename → r.document_id = p.document_id →
      r ∉ (diffRecords previous current).1 ∧
      r ∉ (diffRecords previous current).2) ∧
    (∀ current : List PdfRecord, (current.map PdfRecord.url).Nodup →
      diffRecords current current = ([], [])) := by
  constructor
  · intro previous current r p _ hurl hfn hid
    have hc : classify previous r = RecClass.unchanged := by
      simp [classify, hurl, hfn, hid]
    constructor
    · intro h
      have := ((mem_diffRecords_fst previous current r).mp h).2
      rw [hc] at this; cases this
    · intro h
      have := ((mem_diffRecords_snd previous current r).mp h).2
      rw [hc] at this; cases this
  · intro current hnd
    exact diffRecords_eq_nil_of_unchanged current current
      (fun r hr => classify_self_unchanged current r hnd hr)

/-- Witness for C6: an unchanged record matched against itself, and the
second-run diff of a one-element snapshot. -/
theorem unchanged_record_idempotent_witness :
    (rec9 ∈ [rec9] ∧ lastByUrl [rec9] rec9.url = some rec9 ∧
     rec9 ∉ (diffRecords [rec9] [rec9]).1 ∧
     rec9 ∉ (diffRecords [rec9] [rec9]).2) ∧
    (([rec9].map PdfRecord.url).Nodup ∧
     diffRecords [rec9] [rec9] = ([], [])) := by
  have h1 := unchanged_record_idempotent.1 [rec9] [rec9] rec9 rec9
    (by decide) (by decide) rfl rfl
  have h2 := unchanged_record_idempotent.2 [rec9] (by decide)
  exact ⟨⟨by decide, by decide, h1.1, h1.2⟩, ⟨by decide, h2⟩⟩

/-- Claim C7: a current record whose url is not in the previous by-url
mapping is classified modified when its title is in the previous
by-title mapping, and new when neither is present. -/
theorem unseen_url_branches :
    (∀ (previous current : List PdfRecord) (r : PdfRecord),
      r ∈ current → lastByUrl previous r.url = none →
      (lastByTitle previous r.title).isSome = true →
      r ∈ (diffRecords previous current).2 ∧
      r ∉ (diffRecords previous current).1) ∧
    (∀ (previous current : List PdfRecord) (r : PdfRecord),
      r ∈ current → lastByUrl previous r.url = none →
      lastByTitle previous r.title = none →
      r ∈ (diffRecords previous current).1) := by
  constructor
  · intro previous current r hmem hurl htitle
    have hc : classify previous r = RecClass.isModified := by
      simp [classify, hurl, htitle]
    refine ⟨(mem_diffRecords_snd previous current r).mpr ⟨hmem, hc⟩, ?_⟩
    intro h
    have := ((mem_diffRecords_fst previous current r).mp h).2
    rw [hc] at this; cases this
  · intro previous current r hmem hurl htitle
    have hc : classify previous r = RecClass.isNew := by
      simp [classify, hurl, htitle]
    exact (mem_diffRecords_fst previous current r).mpr ⟨hmem, hc⟩

/-- Witness for C7: the two examples from the specification, a title
seen under a new url and a fully unseen record. -/
theorem unseen_url_branches_witness :
    (({ title := "Rules 2024", url := "u2", document_id := none,
        filename := none } : PdfRecord) ∈
       [({ title := "Rules 2024", url := "u2", document_id := none,
           filename := none } : PdfRecord)] ∧
     lastByUrl
       [{ title := "Rules 2024", url := "u1", document_id := none,
          filename := none }] "u2" = none ∧
     (lastByTitle
       [{ title := "Rules 2024", url := "u1", document_id := none,
          filename := none }] "Rules 2024").isSome = true ∧
     ({ title := "Rules 2024", url := "u2", document_id := none,
        filename := none } : PdfRecord) ∈
       (diffRecords
         [{ title := "Rules 2024", url := "u1", document_id := none,
            filename := none }]
         [{ title := "Rules 2024", url := "u2", document_id := none,
            filename := none }]).2 ∧
     ({ title := "Rules 2024", url := "u2", document_id := none,
        filename := none } : PdfRecord) ∉
       (diffRecords
         [{ title := "Rules 2024", url := "u1", document_id := none,
            filename := none }]
         [{ title := "Rules 2024", url := "u2", document_id := none,
            filename := none }]).1) ∧
    (({ title := "New Doc", url := "u9", document_id := none,
        filename := none } : PdfRecord) ∈
       (diffRecords []
         [{ title := "New Doc", url := "u9", document_id := none,
            filename := none }]).1) := by
  have h1 := unseen_url_branches.1
    [{ title := "Rules 2024", url := "u1", document_id := none,
       filename := none }]
    [{ title := "Rules 2024", url := "u2", document_id := none,
       filename := none }]
    { title := "Rules 2024", url := "u2", document_id := none,
      filename := none }
    (by decide) (by decide) (by decide)
  have h2 := unseen_url_branches.2 []
    [{ title := "New Doc", url := "u9", document_id := none,
       filename := none }]
    { title := "New Doc", url := "u9", document_id := none,
      filename := none }
    (by decide) rfl rfl
  exact ⟨⟨by decide, by decide, by decide, h1.1, h1.2⟩, h2⟩

/-- Claim C8: load_data on an absent cache file yields the empty list
without an error, and any other read failure propagates, so a cycle that
starts from an unreadable file ends in that error before any state is
written. -/
theorem load_missing_file_empty_other_errors_abort :
    load_data FileState.absent = Except.ok (Json.arr []) ∧
    loadRecords FileState.absent = Except.ok ([] : List PdfRecord) ∧
    load_data FileState.malformed = Except.error LoadError.jsonDecodeError ∧
    ∀ (tableRows : List Row) (meta : String → Option String)
      (channelEnv roleEnv : Option String) (getChannel : Int → Bool),
      check_for_updates FileState.malformed tableRows meta channelEnv
        roleEnv getChannel =
        Except.error (CycleError.loadError LoadError.jsonDecodeError) :=
  ⟨rfl, rfl, rfl, fun _ _ _ _ _ => rfl⟩

/-- Witness for C8: the aborted cycle at one concrete input set. -/
theorem load_missing_file_empty_other_errors_abort_witness :
    check_for_updates FileState.malformed [markerRow] (fun _ => none)
      (some "1") (some "2") (fun _ => true) =
      Except.error (CycleError.loadError LoadError.jsonDecodeError) :=
  load_missing_file_empty_other_errors_abort.2.2.2 [markerRow]
    (fun _ => none) (some "1") (some "2") (fun _ => true)

/-- Claim C9: saving any sequence of records and loading it back yields
the same JSON value, and that value reads back as the same record
sequence in the same order. -/
theorem save_then_load_roundtrip (rs : List PdfRecord) :
    load_data (save_data (encodeRecList rs)) = Except.ok (encodeRecList rs) ∧
    loadRecords (save_data (encodeRecList rs)) = Except.ok rs := by
  refine ⟨rfl, ?_⟩
  simp [loadRecords, save_data, load_data, encodeRecList, decodeRecList,
        decodeRecArray_map_encodeRec]

/-- Witness for C9 at a concrete two-record sequence. -/
theorem save_then_load_roundtrip_witness :
    load_data (save_data (encodeRecList [rec9, { rec9 with url := "u2" }])) =
      Except.ok (encodeRecList [rec9, { rec9 with url := "u2" }]) ∧
    loadRecords (save_data (encodeRecList [rec9, { rec9 with url := "u2" }])) =
      Except.ok [rec9, { rec9 with url := "u2" }] :=
  save_then_load_roundtrip [rec9, { rec9 with url := "u2" }]

/-- Claim C1 (code bug): on rendered HTML without the marker row,
scrape_pdfs does not return an empty record sequence: it falls off a
bare return, giving None, and the cycle then fails with a TypeError when
check_for_updates iterates that None, instead of proceeding with an
empty current list. -/
theorem missing_marker_returns_none_and_cycle_fails :
    scrape_pdfs [plainRow] = Except.ok none ∧
    scrape_pdfs [plainRow] ≠ Except.ok (some ([] : List PdfRecord)) ∧
    check_for_updates FileState.absent [plainRow] (fun _ => none)
      (some "1") (some "2") (fun _ => true) =
      Except.error CycleError.noneNotIterable :=
  ⟨rfl, by simp [scrape_pdfs, findRulesetRow, plainRow], rfl⟩

/-- Claim C2 (code bug): a cycle with CHANNEL_ID missing from the
environment raises a TypeError from int applied to None instead of
skipping notification, and a cycle that skips because the channel does
not resolve returns early, leaving the cache file at its previous value
rather than replacing it with the current scrape. -/
theorem missing_config_raises_and_skip_skips_save :
    check_for_updates FileState.absent [markerRow] (fun _ => none)
      none (some "7") (fun _ => true) =
      Except.error CycleError.intOfNone ∧
    check_for_updates (save_data (encodeRecList [])) [markerRow, docRow]
      (fun _ => none) (some "5") (some "7") (fun _ => false) =
      Except.ok { new_pdfs := [rec9], modified_pdfs := [], messages := [],
                  finalState := save_data (encodeRecList []) } ∧
    save_data (encodeRecList []) ≠ save_data (encodeRecList [rec9]) :=
  ⟨rfl, rfl, by simp [save_data, encodeRecList]⟩

/-- Claim C10: there is rendered HTML whose marker row is found and
whose collected sibling rows include one with a first cell lacking a
direct text node (and one with no cell at all) on which scrape_pdfs
raises instead of returning a record list: row processing is not
total. -/
theorem parser_not_total_on_missing_cell_text :
    findRulesetRow [markerRow, noTextRow] = some [noTextRow] ∧
    collectRows [noTextRow] = [noTextRow] ∧
    scrape_pdfs [markerRow, noTextRow] = Except.error ScrapeError.stripOnNone ∧
    scrape_pdfs [markerRow, noCellRow] = Except.error ScrapeError.noFirstCell :=
  ⟨rfl, rfl, rfl, rfl⟩
